import Mathlib

/-!
Shallow embedding of the blockchain reward transaction core of the
sl-teaching-website backend (services/blockchain and services/reward).
Python dictionaries are modelled as association lists with unique keys,
RPC interactions as explicit oracle values, and a call that can block
forever (a non-reentrant lock acquired twice by the same thread) as an
Option result where none stands for non-termination.
-/

namespace SLTeach

/-! Result of a fallible RPC interaction: ok value or raised exception text. -/

inductive RpcResult (α : Type) where
  | ok (value : α)
  | err (msg : String)
deriving Repr, DecidableEq

/-! Python dict operations over association lists (keys unique, insertion order kept). -/

def dictLookup {α : Type} (m : List (String × α)) (k : String) : Option α :=
  match m with
  | [] => none
  | (k0, v) :: rest => if k0 = k then some v else dictLookup rest k

def dictInsert {α : Type} (m : List (String × α)) (k : String) (v : α) : List (String × α) :=
  match m with
  | [] => [(k, v)]
  | (k0, v0) :: rest => if k0 = k then (k0, v) :: rest else (k0, v0) :: dictInsert rest k v

def dictErase {α : Type} (m : List (String × α)) (k : String) : List (String × α) :=
  match m with
  | [] => []
  | (k0, v0) :: rest => if k0 = k then rest else (k0, v0) :: dictErase rest k

/-- Keys of the association list are pairwise distinct (Python dict well-formedness). -/
def dictKeysNodup {α : Type} (m : List (String × α)) : Prop :=
  (m.map Prod.fst).Nodup

/-! String helpers mirroring Python text operations used by the services. -/

def pyLower (s : String) : String := String.mk (s.toList.map Char.toLower)

def listContainsSub (pat : List Char) : List Char → Bool
  | [] => pat.isEmpty
  | c :: rest => pat.isPrefixOf (c :: rest) || listContainsSub pat rest

/-- Python substring test: pat in s. -/
def containsSubstring (s pat : String) : Bool :=
  listContainsSub pat.toList s.toList

def takeDigits : List Char → List Char
  | [] => []
  | c :: rest => if c.isDigit then c :: takeDigits rest else []

def digitsToNat : List Char → Nat → Nat
  | [], acc => acc
  | c :: rest, acc => digitsToNat rest (acc * 10 + (c.toNat - 48))

/-! NonceManager (services/blockchain/nonce_manager.py).
The instance holds a non-reentrant threading.Lock; acquiring it while the
same thread already holds it blocks forever, which we model as none. -/

structure NonceState where
  lockHeld : Bool
  currentNonce : Option Nat
  lastUpdateTime : Nat
deriving Repr, DecidableEq

def nonceCacheTtl : Nat := 5

def acquireLock (st : NonceState) : Option NonceState :=
  if st.lockHeld then none else some { st with lockHeld := true }

def releaseLock (st : NonceState) : NonceState := { st with lockHeld := false }

/-- NonceManager.get_next_nonce: under the lock, refresh the cached nonce from the
chain when unset or expired, then return it and increment the cache. -/
def getNextNonce (st : NonceState) (now : Nat) (chainCount : RpcResult Nat) :
    Option (RpcResult Nat × NonceState) :=
  match acquireLock st with
  | none => none
  | some st1 =>
    let refreshNeeded := st1.currentNonce.isNone || decide (now - st1.lastUpdateTime > nonceCacheTtl)
    let refreshed : RpcResult NonceState :=
      if refreshNeeded then
        match chainCount with
        | .ok n => .ok { st1 with currentNonce := some n, lastUpdateTime := now }
        | .err m =>
          match st1.currentNonce with
          | some _ => .ok st1
          | none => .err m
      else .ok st1
    match refreshed with
    | .err m => some (.err m, releaseLock st1)
    | .ok st2 =>
      match st2.currentNonce with
      | some c => some (.ok c, releaseLock { st2 with currentNonce := some (c + 1) })
      | none => some (.err "no nonce available", releaseLock st2)

/-- NonceManager.reset_nonce: under the lock, clear the cache. -/
def resetNonce (st : NonceState) : Option NonceState :=
  match acquireLock st with
  | none => none
  | some st1 => some (releaseLock { st1 with currentNonce := none, lastUpdateTime := 0 })

/-- Regex search for the pattern: minimum expected nonce is, a space, then digits.
Scans left to right as re.search does, returning the first full match. -/
def scanMinNonce : List Char → Option Nat
  | [] => none
  | c :: rest =>
    if ("minimum expected nonce is ".toList).isPrefixOf (c :: rest) then
      let after := (c :: rest).drop ("minimum expected nonce is ".toList).length
      let ds := takeDigits after
      if ds.isEmpty then scanMinNonce rest else some (digitsToNat ds 0)
    else scanMinNonce rest

/-- NonceManager.handle_nonce_error: while holding the lock, parse the expected
nonce from the message; on success cache and return it. Otherwise the code
calls reset_nonce and get_next_nonce, which re-acquire the already held
non-reentrant lock: that path never terminates (modelled as none). -/
def handleNonceError (st : NonceState) (now : Nat) (chainCount : RpcResult Nat)
    (errorMessage : String) : Option (Nat × NonceState) :=
  match acquireLock st with
  | none => none
  | some st1 =>
    if containsSubstring errorMessage "minimum expected nonce is" then
      match scanMinNonce errorMessage.toList with
      | some k => some (k, releaseLock { st1 with currentNonce := some k })
      | none =>
        match resetNonce st1 with
        | none => none
        | some st2 =>
          match getNextNonce st2 now chainCount with
          | none => none
          | some (.ok n, st3) => some (n, st3)
          | some (.err _, _) => none
    else
      match resetNonce st1 with
      | none => none
      | some st2 =>
        match getNextNonce st2 now chainCount with
        | none => none
        | some (.ok n, st3) => some (n, st3)
        | some (.err _, _) => none

def nonceQuiescent : NonceState :=
  { lockHeld := false, currentNonce := some 5, lastUpdateTime := 0 }

/-! Fee oracle (BaseContractService._get_eip1559_fees) and the fee branch of the
transaction builders. -/

structure Block where
  baseFeePerGas : Option Nat
deriving Repr, DecidableEq

def oneGwei : Nat := 1000000000

/-- BaseContractService._get_eip1559_fees: returns
(max_fee, priority_fee, base_fee, use_eip1559). -/
def getEip1559Fees (latestBlock : Block) : Nat × Nat × Nat × Bool :=
  if latestBlock.baseFeePerGas.isSome then
    let baseFee := latestBlock.baseFeePerGas.getD 0
    let priorityFee := oneGwei
    let maxFee := baseFee * 2 + priorityFee
    (maxFee, priorityFee, baseFee, true)
  else
    (0, 0, 0, false)

/-- Fetch variant: an exception while getting the latest block falls back to
legacy transactions. -/
def getEip1559FeesFetched (latestBlock : RpcResult Block) : Nat × Nat × Nat × Bool :=
  match latestBlock with
  | .err _ => (0, 0, 0, false)
  | .ok b => getEip1559Fees b

inductive FeeProfile where
  | eip1559 (maxFee maxPriorityFee baseFee : Nat)
  | legacy (gasPrice : Nat)
deriving Repr, DecidableEq

/-- The use_eip1559 branch of the transaction builders: EIP-1559 fields when the
oracle detected support, otherwise the legacy gasPrice from the RPC. -/
def feeProfileFor (latestBlock : Block) (gasPrice : Nat) : FeeProfile :=
  match getEip1559Fees latestBlock with
  | (maxFee, priorityFee, baseFee, true) => .eip1559 maxFee priorityFee baseFee
  | (_, _, _, false) => .legacy gasPrice

/-! Transaction ledger (BaseContractService.pending_transactions and
transaction_details) and the writes performed by _send_transaction. -/

structure TxDetail where
  address : String
  functionName : String
  status : String
  transactionFound : Bool
  blockNumber : Option Nat
  gasUsed : Option Nat
  errorMsg : Option String
deriving Repr, DecidableEq

structure Ledger where
  pendingTransactions : List (String × List String)
  transactionDetails : List (String × TxDetail)
deriving Repr, DecidableEq

def emptyLedger : Ledger := { pendingTransactions := [], transactionDetails := [] }

/-- Pre-receipt write of _send_transaction (store initial details): append the
hash to the address index (creating the entry if absent) and store a fresh
pending record for the hash, overwriting any record already there. -/
def recordPending (st : Ledger) (addr txHash fn : String) : Ledger :=
  let txs := (dictLookup st.pendingTransactions addr).getD []
  { pendingTransactions := dictInsert st.pendingTransactions addr (txs ++ [txHash]),
    transactionDetails := dictInsert st.transactionDetails txHash
      { address := addr, functionName := fn, status := "pending",
        transactionFound := true, blockNumber := none, gasUsed := none, errorMsg := none } }

/-- Post-receipt update of _send_transaction: when the hash is tracked, set the
status from the receipt together with block number and gas used. -/
def updateAfterReceipt (st : Ledger) (txHash : String) (receiptOk : Bool)
    (blockNumber gasUsed : Nat) : Ledger :=
  match dictLookup st.transactionDetails txHash with
  | none => st
  | some d =>
    let status := if receiptOk then "confirmed" else "failed"
    let errMsg := if receiptOk then none
      else some "Transaction execution failed on blockchain"
    let d2 := { d with status := status, transactionFound := true,
                       blockNumber := some blockNumber, gasUsed := some gasUsed,
                       errorMsg := errMsg }
    { st with transactionDetails := dictInsert st.transactionDetails txHash d2 }

/-- Keep only the last 10 transactions per address: when the index holds more
than 10 hashes, pop the oldest and delete its detail record if present. -/
def trimAddress (st : Ledger) (addr : String) : Ledger :=
  match dictLookup st.pendingTransactions addr with
  | none => st
  | some txs =>
    if txs.length > 10 then
      match txs with
      | [] => st
      | oldTx :: rest =>
        { pendingTransactions := dictInsert st.pendingTransactions addr rest,
          transactionDetails := dictErase st.transactionDetails oldTx }
    else st

/-- Receipt-wait failure write of _send_transaction: record or update the hash
as failed, appending to the index only when the hash was not yet tracked. -/
def recordReceiptError (st : Ledger) (addr txHash fn msg : String) : Ledger :=
  match dictLookup st.transactionDetails txHash with
  | none =>
    let txs := (dictLookup st.pendingTransactions addr).getD []
    { pendingTransactions := dictInsert st.pendingTransactions addr (txs ++ [txHash]),
      transactionDetails := dictInsert st.transactionDetails txHash
        { address := addr, functionName := fn, status := "failed",
          transactionFound := false, blockNumber := none, gasUsed := none,
          errorMsg := some msg } }
  | some d =>
    let d2 := { d with status := "failed", errorMsg := some msg }
    { st with transactionDetails := dictInsert st.transactionDetails txHash d2 }

/-- Ledger effect of one _send_transaction call whose receipt wait succeeded:
store pending, update from the receipt, then trim the per-address index. -/
def sendSuccessPut (st : Ledger) (addr txHash fn : String) (receiptOk : Bool)
    (blockNumber gasUsed : Nat) : Ledger :=
  trimAddress (updateAfterReceipt (recordPending st addr txHash fn) txHash receiptOk
    blockNumber gasUsed) addr

/-- Ledger effect of one _send_transaction call whose receipt wait raised:
store pending, then record the failure. No trimming happens on this path. -/
def sendFailurePut (st : Ledger) (addr txHash fn msg : String) : Ledger :=
  recordReceiptError (recordPending st addr txHash fn) addr txHash fn msg

/-- Number of hashes the per-address index holds for addr. -/
def lenIndex (st : Ledger) (addr : String) : Nat :=
  ((dictLookup st.pendingTransactions addr).getD []).length

/-! Status read path (BaseContractService.get_transaction_status). -/

structure ChainTx where
  blockNumber : Option Nat
  nonce : Nat
deriving Repr, DecidableEq

structure ChainReceipt where
  statusField : Nat
  blockNumber : Nat
  gasUsed : Nat
deriving Repr, DecidableEq

structure ChainView where
  getTransaction : RpcResult (Option ChainTx)
  getTransactionReceipt : RpcResult (Option ChainReceipt)
deriving Repr, DecidableEq

structure StatusResult where
  status : String
  txHash : Option String
  transactionFound : Option Bool
  blockNumber : Option Nat
  gasUsed : Option Nat
  errorMsg : Option String
deriving Repr, DecidableEq

/-- BaseContractService.get_transaction_status: answer from the in-memory
details when tracked; otherwise look the hash up on chain, where any raised
RPC error (a 429 included) is caught and reported as a generic error record. -/
def getTransactionStatus (st : Ledger) (txHash : String) (chain : ChainView) : StatusResult :=
  if txHash = "" then
    { status := "error", txHash := none, transactionFound := none,
      blockNumber := none, gasUsed := none,
      errorMsg := some "No transaction hash provided" }
  else
    match dictLookup st.transactionDetails txHash with
    | some d =>
      { status := d.status, txHash := some txHash, transactionFound := some d.transactionFound,
        blockNumber := d.blockNumber, gasUsed := d.gasUsed, errorMsg := d.errorMsg }
    | none =>
      match chain.getTransaction with
      | .err m =>
        { status := "error", txHash := some txHash, transactionFound := some false,
          blockNumber := none, gasUsed := none, errorMsg := some m }
      | .ok none =>
        { status := "error", txHash := some txHash, transactionFound := some false,
          blockNumber := none, gasUsed := none, errorMsg := some "Transaction not found" }
      | .ok (some txd) =>
        match txd.blockNumber with
        | none =>
          { status := "pending", txHash := some txHash, transactionFound := some true,
            blockNumber := none, gasUsed := none, errorMsg := none }
        | some bn =>
          match chain.getTransactionReceipt with
          | .err m =>
            { status := "error", txHash := some txHash, transactionFound := some false,
              blockNumber := none, gasUsed := none, errorMsg := some m }
          | .ok none =>
            { status := "pending", txHash := some txHash, transactionFound := some true,
              blockNumber := some bn, gasUsed := none, errorMsg := none }
          | .ok (some rcpt) =>
            { status := if rcpt.statusField = 1 then "success" else "failed",
              txHash := some txHash, transactionFound := some true,
              blockNumber := some rcpt.blockNumber, gasUsed := some rcpt.gasUsed,
              errorMsg := none }

/-! Send-stage error classification of _send_transaction. -/

def isHexChar (c : Char) : Bool :=
  c.isDigit || ("abcdefABCDEF".toList.contains c)

/-- Take exactly n hex characters from the front of the list, if present. -/
def hexRun : Nat → List Char → Option (List Char)
  | 0, _ => some []
  | _ + 1, [] => none
  | n + 1, c :: rest =>
    if isHexChar c then (hexRun n rest).map (fun ds => c :: ds) else none

/-- Regex search for 0x followed by exactly 64 hex digits: leftmost match,
as re.search performs it. -/
def scanHash64 : List Char → Option String
  | [] => none
  | [_] => none
  | c0 :: c1 :: rest =>
    if c0 = '0' && c1 = 'x' then
      match hexRun 64 rest with
      | some ds => some (String.mk ('0' :: 'x' :: ds))
      | none => scanHash64 (c1 :: rest)
    else scanHash64 (c1 :: rest)

def extractHash64 (s : String) : Option String := scanHash64 s.toList

inductive SendStageResult where
  | awaitReceiptUnder (txHash : String)
  | errorResult (category : String) (txHash : Option String) (msg : String)
deriving Repr, DecidableEq

/-- Send-failure handling of _send_transaction: a nonce-too-low message goes to
the nonce manager and returns a nonce_too_low error dict; an already-known
message continues under the hash extracted from the text, or, when no
64-hex-digit substring is present, raises, which the outermost handler turns
into an unexpected_error result. Any other message raises the same way. -/
def classifySendError (nst : NonceState) (now : Nat) (chainCount : RpcResult Nat)
    (e : String) : Option SendStageResult :=
  let errorMsg := "Failed to send raw transaction: " ++ e
  let le := pyLower e
  if containsSubstring le "nonce" && containsSubstring le "low" then
    match handleNonceError nst now chainCount e with
    | none => none
    | some _ => some (.errorResult "nonce_too_low" none errorMsg)
  else if containsSubstring le "already known" || containsSubstring le "already exists" then
    match extractHash64 e with
    | some h => some (.awaitReceiptUnder h)
    | none => some (.errorResult "unexpected_error" none errorMsg)
  else
    some (.errorResult "unexpected_error" none errorMsg)

/-! Reward facade (services/reward/xp_reward_v2.py and achievement_reward.py),
modelled up to the handoff of the built transaction to _send_transaction.
RPC interactions are oracle fields of RpcEnv and are traced in call order. -/

inductive RpcCall where
  | hasRoleCall
  | estimateGasCall
  | gasPriceCall
  | txCountCall
  | getBlockCall
  | chainIdCall
  | ethCallSim
  | balanceOfCall
deriving Repr, DecidableEq

structure RpcEnv where
  validAddress : Bool
  hasMinterRole : RpcResult Bool
  hasAdminRole : RpcResult Bool
  estimateGas : RpcResult Nat
  gasPrice : Nat
  chainId : Nat
  txCount : Nat
  latestBlock : RpcResult Block
  simulate : RpcResult Unit
deriving Repr, DecidableEq

structure FacadeResult where
  status : String
  errorCategory : Option String
  errorMsg : Option String
  txHash : Option String
deriving Repr, DecidableEq

structure BuiltTx where
  chainId : Nat
  gas : Nat
  fee : FeeProfile
  nonce : Nat
deriving Repr, DecidableEq

inductive FacadeOutcome where
  | finished (r : FacadeResult)
  | submitted (tx : BuiltTx)
deriving Repr, DecidableEq

/-- Outermost exception handler of the facade operations. -/
def unexpectedErrorResult (msg : String) : FacadeResult :=
  { status := "error", errorCategory := some "unexpected_error",
    errorMsg := some msg, txHash := none }

def permissionErrorResult : FacadeResult :=
  { status := "error", errorCategory := some "permission_error",
    errorMsg := some "Account does not have MINTER_ROLE required to award XP",
    txHash := none }

/-- The gas buffer int(gas_estimate * 1.2); the source computes it in floating
point, which agrees with this integer form on the gas scales involved. -/
def gasLimitOf (est : Nat) : Nat := est * 12 / 10

/-- XpRewardServiceV2.check_minter_role: a raised hasRole read is caught inside
this helper, which then returns false. It never raises. -/
def checkMinterRole (env : RpcEnv) : Bool :=
  match env.hasMinterRole with
  | .ok b => b
  | .err _ => false

/-- Shared tail of the builders: gas price, transaction count, fee oracle,
build (reading the chain id), simulate, then hand to _send_transaction. -/
def feeOfEnv (env : RpcEnv) : FeeProfile :=
  match getEip1559FeesFetched env.latestBlock with
  | (maxFee, priorityFee, baseFee, true) => FeeProfile.eip1559 maxFee priorityFee baseFee
  | (_, _, _, false) => FeeProfile.legacy env.gasPrice

def buildAndSimulate (env : RpcEnv) (gasLimit : Nat) (trace : List RpcCall)
    (readBalance : Bool) : FacadeOutcome × List RpcCall :=
  let trace1 := trace ++ [RpcCall.gasPriceCall, RpcCall.txCountCall, RpcCall.getBlockCall,
    RpcCall.chainIdCall]
  let tx : BuiltTx := { chainId := env.chainId, gas := gasLimit, fee := feeOfEnv env,
                        nonce := env.txCount }
  let trace2 := trace1 ++ [RpcCall.ethCallSim]
  match env.simulate with
  | .err m =>
    (.finished (unexpectedErrorResult ("Transaction simulation failed: " ++ m)), trace2)
  | .ok _ =>
    if readBalance then (.submitted tx, trace2 ++ [RpcCall.balanceOfCall])
    else (.submitted tx, trace2)

/-- XpRewardServiceV2.award_xp up to the _send_transaction handoff. A hasRole
read failure surfaces as checkMinterRole returning false, which yields the
permission error result; the except branch around the role check that would
continue is unreachable because checkMinterRole never raises. -/
def awardXp (env : RpcEnv) (addr : String) : FacadeOutcome × List RpcCall :=
  if !env.validAddress then
    (.finished (unexpectedErrorResult ("Invalid Ethereum address: " ++ addr)), [])
  else
    let trace0 := [RpcCall.hasRoleCall]
    if !checkMinterRole env then
      (.finished permissionErrorResult, trace0)
    else
      match env.estimateGas with
      | .err m => (.finished (unexpectedErrorResult m), trace0 ++ [RpcCall.estimateGasCall])
      | .ok est =>
        buildAndSimulate env (gasLimitOf est) (trace0 ++ [RpcCall.estimateGasCall]) true

/-- XpRewardServiceV2.award_custom_xp up to the _send_transaction handoff.
The role check precedes the amount validation, and both failures raise a
ValueError that the outermost handler converts to unexpected_error. -/
def awardCustomXp (env : RpcEnv) (addr : String) (amount : Int) :
    FacadeOutcome × List RpcCall :=
  if !env.validAddress then
    (.finished (unexpectedErrorResult ("Invalid Ethereum address: " ++ addr)), [])
  else
    let trace0 := [RpcCall.hasRoleCall]
    if !checkMinterRole env then
      (.finished (unexpectedErrorResult
        "Account does not have MINTER_ROLE required to award XP"), trace0)
    else if amount ≤ 0 then
      (.finished (unexpectedErrorResult ("Amount must be positive, got " ++ toString amount)),
       trace0)
    else
      match env.estimateGas with
      | .err m => (.finished (unexpectedErrorResult m), trace0 ++ [RpcCall.estimateGasCall])
      | .ok est =>
        buildAndSimulate env (gasLimitOf est) (trace0 ++ [RpcCall.estimateGasCall]) true

/-- XpRewardServiceV2.update_reward_rate up to the _send_transaction handoff.
The admin-role read is made directly (its exception propagates to the outer
handler), and only here a gas-estimation failure falls back to the constant
limit 300000 instead of aborting. -/
def updateRewardRate (env : RpcEnv) (newRate : Int) : FacadeOutcome × List RpcCall :=
  let trace0 := [RpcCall.hasRoleCall]
  match env.hasAdminRole with
  | .err m => (.finished (unexpectedErrorResult m), trace0)
  | .ok false =>
    (.finished (unexpectedErrorResult
      "Account does not have DEFAULT_ADMIN_ROLE required to update reward rates"), trace0)
  | .ok true =>
    if newRate ≤ 0 then
      (.finished (unexpectedErrorResult ("New rate must be positive, got " ++ toString newRate)),
       trace0)
    else
      let gasLimit :=
        match env.estimateGas with
        | .ok est => gasLimitOf est
        | .err _ => 300000
      buildAndSimulate env gasLimit (trace0 ++ [RpcCall.estimateGasCall]) false

/-! Achievement facade (services/reward/achievement_reward.py). -/

inductive AchievementType where
  | beginner
  | intermediate
  | advanced
  | expert
  | master
deriving Repr, DecidableEq

/-- achievement_thresholds of AchievementRewardService.__init__. -/
def achievementThresholds : AchievementType → Nat
  | .beginner => 100
  | .intermediate => 500
  | .advanced => 750
  | .expert => 1000
  | .master => 2000

/-- sorted(AchievementType, key=thresholds): the enum order already lists the
thresholds in increasing order, so the sort returns it unchanged. -/
def sortedAchievementTypes : List AchievementType :=
  [.beginner, .intermediate, .advanced, .expert, .master]

/-- Loop body of award_achievement_by_xp: keep upgrading the candidate while
the threshold is reached, stop at the first threshold above the amount. -/
def selectAchievementLoop (xp : Nat) :
    List AchievementType → Option AchievementType → Option AchievementType
  | [], acc => acc
  | t :: rest, acc =>
    if achievementThresholds t ≤ xp then selectAchievementLoop xp rest (some t)
    else acc

def selectAchievementType (xp : Nat) : Option AchievementType :=
  selectAchievementLoop xp sortedAchievementTypes none

/-- AchievementRewardService.mint_achievement up to the _send_transaction
handoff: validate the address, estimate gas, fetch the nonce, fees, build,
simulate, send. Any raise is converted by the outer handler. -/
def mintAchievement (env : RpcEnv) (addr : String) : FacadeOutcome × List RpcCall :=
  if !env.validAddress then
    (.finished (unexpectedErrorResult ("Invalid Ethereum address: " ++ addr)), [])
  else
    match env.estimateGas with
    | .err m => (.finished (unexpectedErrorResult m), [RpcCall.estimateGasCall])
    | .ok est =>
      let trace1 := [RpcCall.estimateGasCall, RpcCall.txCountCall, RpcCall.getBlockCall,
        RpcCall.chainIdCall]
      let tx : BuiltTx := { chainId := env.chainId, gas := gasLimitOf est, fee := feeOfEnv env,
                            nonce := env.txCount }
      let trace2 := trace1 ++ [RpcCall.ethCallSim]
      match env.simulate with
      | .err m =>
        (.finished (unexpectedErrorResult ("Transaction simulation failed: " ++ m)), trace2)
      | .ok _ => (.submitted tx, trace2)

/-- AchievementRewardService.award_achievement_by_xp: pick the achievement type
from the XP amount; when none qualifies return a validation_error result with
no RPC interaction, otherwise mint. -/
def awardAchievementByXp (env : RpcEnv) (addr : String) (xp : Nat) :
    FacadeOutcome × List RpcCall :=
  match selectAchievementType xp with
  | none =>
    (.finished { status := "error", errorCategory := some "validation_error",
                 errorMsg := some "XP amount does not qualify for any achievement level",
                 txHash := none }, [])
  | some _ => mintAchievement env addr

/-! Association-list lemmas shared by the ledger theorems. -/

theorem dictLookup_insert_self {α : Type} (m : List (String × α)) (k : String) (v : α) :
    dictLookup (dictInsert m k v) k = some v := by
  induction m with
  | nil => simp [dictInsert, dictLookup]
  | cons p rest ih =>
    obtain ⟨k0, v0⟩ := p
    by_cases h : k0 = k
    · simp [dictInsert, h, dictLookup]
    · simp [dictInsert, h, dictLookup, ih]

theorem dictLookup_eq_none_of_not_mem {α : Type} (m : List (String × α)) (k : String)
    (h : k ∉ m.map Prod.fst) : dictLookup m k = none := by
  induction m with
  | nil => rfl
  | cons p rest ih =>
    obtain ⟨k0, v0⟩ := p
    simp only [List.map_cons, List.mem_cons] at h
    push_neg at h
    have hne : ¬k0 = k := fun hk => h.1 hk.symm
    simp [dictLookup, hne, ih h.2]

theorem dictLookup_erase_self {α : Type} (m : List (String × α)) (k : String)
    (hnd : dictKeysNodup m) : dictLookup (dictErase m k) k = none := by
  induction m with
  | nil => rfl
  | cons p rest ih =>
    obtain ⟨k0, v0⟩ := p
    simp only [dictKeysNodup, List.map_cons, List.nodup_cons] at hnd
    by_cases h : k0 = k
    · subst h
      simpa [dictErase] using dictLookup_eq_none_of_not_mem rest k0 hnd.1
    · simp [dictErase, h, dictLookup, ih hnd.2]

theorem updateAfterReceipt_pending (st : Ledger) (txHash : String) (receiptOk : Bool)
    (bn gu : Nat) :
    (updateAfterReceipt st txHash receiptOk bn gu).pendingTransactions =
      st.pendingTransactions := by
  unfold updateAfterReceipt
  cases dictLookup st.transactionDetails txHash <;> rfl

theorem lenIndex_recordPending (st : Ledger) (addr txHash fn : String) :
    lenIndex (recordPending st addr txHash fn) addr = lenIndex st addr + 1 := by
  unfold lenIndex recordPending
  simp [dictLookup_insert_self]

/-- Length effect of the trim step: one element is dropped exactly when the
index holds more than 10 hashes. -/
theorem lenIndex_trimAddress (st : Ledger) (addr : String) :
    lenIndex (trimAddress st addr) addr =
      if 10 < lenIndex st addr then lenIndex st addr - 1 else lenIndex st addr := by
  unfold lenIndex trimAddress
  cases hL : dictLookup st.pendingTransactions addr with
  | none => simp [hL]
  | some txs =>
    cases txs with
    | nil => simp [hL]
    | cons o r =>
      by_cases h : 10 < (o :: r).length
      · simp only [List.length_cons] at h
        simp [h, hL, dictLookup_insert_self]
      · simp only [List.length_cons] at h
        simp [h, hL]

/-! C4: terminal records and duplicate submissions. -/

def confirmedDetail : TxDetail :=
  { address := "0xA11CE", functionName := "awardXP", status := "confirmed",
    transactionFound := true, blockNumber := some 4321, gasUsed := some 52000,
    errorMsg := none }

def c4TerminalLedger : Ledger :=
  { pendingTransactions := [("0xA11CE", ["0xdup"])],
    transactionDetails := [("0xdup", confirmedDetail)] }

/-- C4 counterexample: a ledger holds a Confirmed (terminal) record for hash
0xdup; a duplicate submission that reuses this hash runs the pre-receipt write
again, and the record comes back out as a fresh Pending one. -/
theorem terminal_record_reset_to_pending_cex :
    dictLookup c4TerminalLedger.transactionDetails "0xdup" = some confirmedDetail ∧
    confirmedDetail.status = "confirmed" ∧
    dictLookup (recordPending c4TerminalLedger "0xA11CE" "0xdup" "awardXP").transactionDetails
        "0xdup" =
      some { address := "0xA11CE", functionName := "awardXP", status := "pending",
             transactionFound := true, blockNumber := none, gasUsed := none,
             errorMsg := none } :=
  ⟨rfl, rfl, rfl⟩

/-- C4 (amended): the pre-receipt ledger write of the submission pipeline
unconditionally overwrites whatever record the hash already has — terminal
records included — with a fresh Pending record, and appends the hash to the
address index once more. -/
theorem recordPending_overwrites_any_record (st : Ledger) (addr txHash fn : String) :
    dictLookup (recordPending st addr txHash fn).transactionDetails txHash =
      some { address := addr, functionName := fn, status := "pending",
             transactionFound := true, blockNumber := none, gasUsed := none,
             errorMsg := none } ∧
    dictLookup (recordPending st addr txHash fn).pendingTransactions addr =
      some (((dictLookup st.pendingTransactions addr).getD []) ++ [txHash]) :=
  ⟨dictLookup_insert_self st.transactionDetails txHash _,
   dictLookup_insert_self st.pendingTransactions addr _⟩

/-! C5: fee oracle. -/

/-- C5: when the latest block carries baseFeePerGas, the fee computation yields
an EIP-1559 profile with maxPriorityFee of exactly 1 gwei and maxFee of exactly
2 times the base fee plus the priority fee; without the field it yields a
legacy profile priced at the RPC gas price. -/
theorem feeProfile_eip1559_and_legacy (b gasPrice : Nat) :
    feeProfileFor { baseFeePerGas := some b } gasPrice =
      .eip1559 (2 * b + oneGwei) oneGwei b ∧
    oneGwei = 1000000000 ∧
    feeProfileFor { baseFeePerGas := none } gasPrice = .legacy gasPrice := by
  refine ⟨?_, rfl, rfl⟩
  show FeeProfile.eip1559 (b * 2 + oneGwei) oneGwei b =
    FeeProfile.eip1559 (2 * b + oneGwei) oneGwei b
  rw [Nat.mul_comm]

/-! C6: nonce-error handling. -/

/-- C6: a send error reporting a minimum expected nonce makes handle_nonce_error
cache and return that nonce; any other error text routes to the reset path,
which re-acquires the already held non-reentrant lock and therefore never
terminates (none), instead of returning a refetched chain nonce. -/
theorem handleNonceError_parse_or_deadlock :
    handleNonceError nonceQuiescent 0 (.ok 7)
        "worker: nonce too low: address 0xf4240, tx nonce 12, minimum expected nonce is 14" =
      some (14, { lockHeld := false, currentNonce := some 14, lastUpdateTime := 0 }) ∧
    handleNonceError nonceQuiescent 0 (.ok 7) "replacement transaction underpriced" =
      none :=
  ⟨rfl, rfl⟩

/-! C3: per-address index cap. -/

def elevenHashes : List String :=
  ["0xh01", "0xh02", "0xh03", "0xh04", "0xh05", "0xh06", "0xh07", "0xh08", "0xh09",
   "0xh10", "0xh11"]

/-- Ledger reached from empty after eleven submissions whose receipt wait
failed: every one of them appends to the address index and none trims it. -/
def c3OverflowLedger : Ledger :=
  elevenHashes.foldl (fun st h => sendFailurePut st "0xA11CE" h "awardXP" "timeout") emptyLedger

/-- C3 counterexample: after a sequence of eleven failed-submission put
operations, the per-address index holds eleven hashes, violating the claimed
bound of ten. -/
theorem addressIndex_cap_exceeded_cex :
    lenIndex c3OverflowLedger "0xA11CE" = 11 ∧ ¬ lenIndex c3OverflowLedger "0xA11CE" ≤ 10 := by
  constructor
  · rfl
  · decide

/-- C3 (amended): a put on the successful-receipt path preserves the bound of
ten per address, and when the index has grown past ten, the trim step drops the
oldest hash from the index and deletes its record from the details map; puts on
the failure path append without trimming and can therefore exceed the bound. -/
theorem addressIndex_cap_success_path :
    (∀ (st : Ledger) (addr txHash fn : String) (receiptOk : Bool) (bn gu : Nat),
        lenIndex st addr ≤ 10 →
        lenIndex (sendSuccessPut st addr txHash fn receiptOk bn gu) addr ≤ 10) ∧
    (∀ (st : Ledger) (addr oldTx : String) (rest : List String),
        dictKeysNodup st.transactionDetails →
        dictLookup st.pendingTransactions addr = some (oldTx :: rest) →
        10 < (oldTx :: rest).length →
        dictLookup (trimAddress st addr).pendingTransactions addr = some rest ∧
        dictLookup (trimAddress st addr).transactionDetails oldTx = none) := by
  constructor
  · intro st addr txHash fn receiptOk bn gu hle
    unfold sendSuccessPut
    have h1 : lenIndex (updateAfterReceipt (recordPending st addr txHash fn) txHash receiptOk
        bn gu) addr = lenIndex st addr + 1 := by
      unfold lenIndex
      rw [updateAfterReceipt_pending]
      have := lenIndex_recordPending st addr txHash fn
      unfold lenIndex at this
      exact this
    rw [lenIndex_trimAddress, h1]
    split <;> omega
  · intro st addr oldTx rest hnd hL hlen
    unfold trimAddress
    rw [hL]
    simp only [List.length_cons] at hlen
    simp only [List.length_cons, if_pos hlen]
    exact ⟨dictLookup_insert_self st.pendingTransactions addr rest,
      dictLookup_erase_self st.transactionDetails oldTx hnd⟩

/-- Ledger with eleven tracked hashes for one address, used to exercise the
trim step of the amended C3 statement at a concrete input. -/
def c3TrimLedger : Ledger :=
  { pendingTransactions := [("0xA11CE", elevenHashes)],
    transactionDetails := [("0xh01", confirmedDetail)] }

def tenHashes : List String :=
  ["0xh02", "0xh03", "0xh04", "0xh05", "0xh06", "0xh07", "0xh08", "0xh09", "0xh10", "0xh11"]

/-- C3 witness: the amended statement applied at concrete inputs. -/
theorem addressIndex_cap_success_path_witness :
    lenIndex (sendSuccessPut emptyLedger "0xA11CE" "0xh01" "awardXP" true 4321 52000)
        "0xA11CE" ≤ 10 ∧
    dictLookup (trimAddress c3TrimLedger "0xA11CE").pendingTransactions "0xA11CE" =
      some tenHashes ∧
    dictLookup (trimAddress c3TrimLedger "0xA11CE").transactionDetails "0xh01" = none := by
  refine ⟨addressIndex_cap_success_path.1 emptyLedger "0xA11CE" "0xh01" "awardXP" true
    4321 52000 (by decide), ?_, ?_⟩
  · exact (addressIndex_cap_success_path.2 c3TrimLedger "0xA11CE" "0xh01" tenHashes
      (by unfold dictKeysNodup; decide) rfl (by decide)).1
  · exact (addressIndex_cap_success_path.2 c3TrimLedger "0xA11CE" "0xh01" tenHashes
      (by unfold dictKeysNodup; decide) rfl (by decide)).2

/-! C7: status read for hashes unknown to the in-memory ledger. -/

def chain429 : ChainView :=
  { getTransaction := .err "429 Client Error: Too Many Requests",
    getTransactionReceipt := .ok none }

/-- C7 counterexample: for a hash absent from the in-memory ledger, a chain
read that raises a 429 yields a generic error record, not a Pending record
marked RateLimited. -/
theorem getTransactionStatus_rate_limit_cex :
    getTransactionStatus emptyLedger "0xfeed" chain429 =
      { status := "error", txHash := some "0xfeed", transactionFound := some false,
        blockNumber := none, gasUsed := none,
        errorMsg := some "429 Client Error: Too Many Requests" } ∧
    (getTransactionStatus emptyLedger "0xfeed" chain429).status ≠ "pending" := by
  refine ⟨rfl, ?_⟩
  decide

/-- C7 (amended): for a hash unknown in memory, the status read performs the
chain lookup; a transaction without a block number reads as pending, one with
a receipt reads as a synthesized terminal record, and any raised RPC error
during the read — a 429 included — is returned as a generic error record with
the exception text, never as a Pending or RateLimited record. -/
theorem getTransactionStatus_chain_lookup (st : Ledger) (h : String) (chain : ChainView)
    (hne : ¬ h = "") (hmem : dictLookup st.transactionDetails h = none) :
    (∀ txd, chain.getTransaction = .ok (some txd) → txd.blockNumber = none →
      getTransactionStatus st h chain =
        { status := "pending", txHash := some h, transactionFound := some true,
          blockNumber := none, gasUsed := none, errorMsg := none }) ∧
    (∀ txd bn rcpt, chain.getTransaction = .ok (some txd) → txd.blockNumber = some bn →
      chain.getTransactionReceipt = .ok (some rcpt) →
      getTransactionStatus st h chain =
        { status := if rcpt.statusField = 1 then "success" else "failed",
          txHash := some h, transactionFound := some true,
          blockNumber := some rcpt.blockNumber, gasUsed := some rcpt.gasUsed,
          errorMsg := none }) ∧
    (∀ m, chain.getTransaction = .err m →
      getTransactionStatus st h chain =
        { status := "error", txHash := some h, transactionFound := some false,
          blockNumber := none, gasUsed := none, errorMsg := some m }) := by
  refine ⟨?_, ?_, ?_⟩
  · intro txd hti hbn
    simp [getTransactionStatus, hne, hmem, hti, hbn]
  · intro txd bn rcpt hti hbn hrc
    simp [getTransactionStatus, hne, hmem, hti, hbn, hrc]
  · intro m hti
    simp [getTransactionStatus, hne, hmem, hti]

def chainPendingTx : ChainView :=
  { getTransaction := .ok (some { blockNumber := none, nonce := 9 }),
    getTransactionReceipt := .ok none }

def chainMinedTx : ChainView :=
  { getTransaction := .ok (some { blockNumber := some 4321, nonce := 9 }),
    getTransactionReceipt := .ok (some { statusField := 1, blockNumber := 4321,
                                         gasUsed := 52000 }) }

/-- C7 witness: the amended statement applied at concrete chain views. -/
theorem getTransactionStatus_chain_lookup_witness :
    getTransactionStatus emptyLedger "0xbeef" chainPendingTx =
      { status := "pending", txHash := some "0xbeef", transactionFound := some true,
        blockNumber := none, gasUsed := none, errorMsg := none } ∧
    getTransactionStatus emptyLedger "0xbeef" chainMinedTx =
      { status := "success", txHash := some "0xbeef", transactionFound := some true,
        blockNumber := some 4321, gasUsed := some 52000, errorMsg := none } ∧
    getTransactionStatus emptyLedger "0xbeef" chain429 =
      { status := "error", txHash := some "0xbeef", transactionFound := some false,
        blockNumber := none, gasUsed := none,
        errorMsg := some "429 Client Error: Too Many Requests" } := by
  refine ⟨?_, ?_, ?_⟩
  · exact (getTransactionStatus_chain_lookup emptyLedger "0xbeef" chainPendingTx
      (by decide) rfl).1 _ rfl rfl
  · have := (getTransactionStatus_chain_lookup emptyLedger "0xbeef" chainMinedTx
      (by decide) rfl).2.1 { blockNumber := some 4321, nonce := 9 } 4321
      { statusField := 1, blockNumber := 4321, gasUsed := 52000 } rfl rfl rfl
    simpa using this
  · exact (getTransactionStatus_chain_lookup emptyLedger "0xbeef" chain429
      (by decide) rfl).2.2 _ rfl

/-! C9: duplicate-in-mempool classification at the send stage. -/

/-- C9: for a send error text indicating a duplicate transaction and not a
nonce error, the classifier continues awaiting the receipt under the extracted
64-hex-digit hash when one is present, and otherwise raises, which the
outermost handler converts into an unexpected_error outcome. -/
theorem alreadyKnown_requires_hash_extraction
    (nst : NonceState) (now : Nat) (cc : RpcResult Nat) (e : String)
    (hak : containsSubstring (pyLower e) "already known" = true)
    (hnl : (containsSubstring (pyLower e) "nonce" && containsSubstring (pyLower e) "low")
      = false) :
    (∀ h, extractHash64 e = some h →
      classifySendError nst now cc e = some (.awaitReceiptUnder h)) ∧
    (extractHash64 e = none →
      classifySendError nst now cc e =
        some (.errorResult "unexpected_error" none ("Failed to send raw transaction: " ++ e))) := by
  constructor
  · intro h hh
    simp [classifySendError, hnl, hak, hh]
  · intro hh
    simp [classifySendError, hnl, hak, hh]

def hex64 : String := "abcdefABCDEF0123456789abcdef0123456789abcdef0123456789abcdef0123"

def alreadyKnownMsgWithHash : String := "already known: 0x" ++ hex64

/-- C9 witness: the classifier applied to a duplicate error text carrying a
64-hex-digit hash and to one carrying none. -/
theorem alreadyKnown_requires_hash_extraction_witness :
    classifySendError nonceQuiescent 0 (.ok 7) alreadyKnownMsgWithHash =
      some (.awaitReceiptUnder ("0x" ++ hex64)) ∧
    classifySendError nonceQuiescent 0 (.ok 7) "already known" =
      some (.errorResult "unexpected_error" none
        "Failed to send raw transaction: already known") := by
  constructor
  · exact (alreadyKnown_requires_hash_extraction nonceQuiescent 0 (.ok 7)
      alreadyKnownMsgWithHash (by decide) (by decide)).1 ("0x" ++ hex64) (by decide)
  · exact (alreadyKnown_requires_hash_extraction nonceQuiescent 0 (.ok 7)
      "already known" (by decide) (by decide)).2 (by decide)

/-! C1, C2, C10: facade submission operations. -/

def happyEnv : RpcEnv :=
  { validAddress := true, hasMinterRole := .ok true, hasAdminRole := .ok true,
    estimateGas := .ok 100000, gasPrice := 2000000000, chainId := 314159, txCount := 3,
    latestBlock := .ok { baseFeePerGas := some 10000000000 }, simulate := .ok () }

def estFailEnv : RpcEnv :=
  { happyEnv with estimateGas := .err "execution aborted: gas estimation failed" }

/-- C1 counterexample: in award_xp a failing gas-estimation call is a terminal
error outcome — an unexpected_error result with no transaction hash — rather
than a fallback to a constant gas limit followed by a send. -/
theorem awardXp_estimation_failure_terminal_cex :
    awardXp estFailEnv "0xRecipient" =
      (.finished (unexpectedErrorResult "execution aborted: gas estimation failed"),
       [RpcCall.hasRoleCall, RpcCall.estimateGasCall]) :=
  rfl

/-- C1 (amended): a gas-estimation failure is terminal for award_xp and
award_custom_xp, which return an unexpected_error result without building or
sending anything; only update_reward_rate catches the estimation failure and
proceeds with the constant gas limit 300000. -/
theorem estimation_fallback_only_in_updateRewardRate
    (env : RpcEnv) (addr m : String)
    (hv : env.validAddress = true)
    (hr : env.hasMinterRole = .ok true)
    (he : env.estimateGas = .err m) :
    (awardXp env addr).1 = .finished (unexpectedErrorResult m) ∧
    (∀ amount : Int, 0 < amount →
      (awardCustomXp env addr amount).1 = .finished (unexpectedErrorResult m)) ∧
    (env.hasAdminRole = .ok true → env.simulate = .ok () → ∀ rate : Int, 0 < rate →
      updateRewardRate env rate =
        (.submitted { chainId := env.chainId, gas := 300000, fee := feeOfEnv env,
                      nonce := env.txCount },
         [RpcCall.hasRoleCall, RpcCall.estimateGasCall, RpcCall.gasPriceCall,
          RpcCall.txCountCall, RpcCall.getBlockCall, RpcCall.chainIdCall,
          RpcCall.ethCallSim])) := by
  refine ⟨?_, ?_, ?_⟩
  · simp [awardXp, hv, checkMinterRole, hr, he]
  · intro amount ha
    have hna : ¬ amount ≤ 0 := by omega
    simp [awardCustomXp, hv, checkMinterRole, hr, hna, he]
  · intro hadmin hsim rate hrate
    have hnr : ¬ rate ≤ 0 := by omega
    simp [updateRewardRate, hadmin, hnr, he, buildAndSimulate, hsim]

/-- C1 witness: the amended statement applied at a concrete environment whose
gas estimation fails. -/
theorem estimation_fallback_only_in_updateRewardRate_witness :
    (awardXp estFailEnv "0xRecipient").1 =
      .finished (unexpectedErrorResult "execution aborted: gas estimation failed") ∧
    (awardCustomXp estFailEnv "0xRecipient" 25).1 =
      .finished (unexpectedErrorResult "execution aborted: gas estimation failed") ∧
    updateRewardRate estFailEnv 5 =
      (.submitted { chainId := 314159, gas := 300000, fee := feeOfEnv estFailEnv,
                    nonce := 3 },
       [RpcCall.hasRoleCall, RpcCall.estimateGasCall, RpcCall.gasPriceCall,
        RpcCall.txCountCall, RpcCall.getBlockCall, RpcCall.chainIdCall,
        RpcCall.ethCallSim]) := by
  refine ⟨?_, ?_, ?_⟩
  · exact (estimation_fallback_only_in_updateRewardRate estFailEnv "0xRecipient"
      "execution aborted: gas estimation failed" rfl rfl rfl).1
  · exact (estimation_fallback_only_in_updateRewardRate estFailEnv "0xRecipient"
      "execution aborted: gas estimation failed" rfl rfl rfl).2.1 25 (by omega)
  · exact (estimation_fallback_only_in_updateRewardRate estFailEnv "0xRecipient"
      "execution aborted: gas estimation failed" rfl rfl rfl).2.2 rfl rfl 5 (by omega)

/-- C2 counterexample: award_custom_xp with amount zero returns an
unexpected_error result — not a validation_error one — and the hasRole read
(an RPC call) runs before the amount validation fails. -/
theorem awardCustomXp_zero_amount_cex :
    awardCustomXp happyEnv "0xRecipient" 0 =
      (.finished { status := "error", errorCategory := some "unexpected_error",
                   errorMsg := some "Amount must be positive, got 0", txHash := none },
       [RpcCall.hasRoleCall]) ∧
    (awardCustomXp happyEnv "0xRecipient" 0).2 ≠ ([] : List RpcCall) := by
  refine ⟨rfl, ?_⟩
  decide

/-- C2 (amended): for a valid address whose signer holds the minter role,
award_custom_xp with amount zero fails the amount validation with an
unexpected_error result, after exactly one RPC call — the hasRole read — and
before any gas estimation. -/
theorem awardCustomXp_zero_amount_behavior (env : RpcEnv) (addr : String)
    (hv : env.validAddress = true) (hr : env.hasMinterRole = .ok true) :
    awardCustomXp env addr 0 =
      (.finished (unexpectedErrorResult "Amount must be positive, got 0"),
       [RpcCall.hasRoleCall]) := by
  simp [awardCustomXp, hv, checkMinterRole, hr]
  rfl

/-- C2 witness: the amended statement applied at a concrete environment. -/
theorem awardCustomXp_zero_amount_behavior_witness :
    awardCustomXp happyEnv "0xCafe" 0 =
      (.finished (unexpectedErrorResult "Amount must be positive, got 0"),
       [RpcCall.hasRoleCall]) :=
  awardCustomXp_zero_amount_behavior happyEnv "0xCafe" rfl rfl

def roleErrEnv : RpcEnv :=
  { happyEnv with hasMinterRole := .err "HTTPSConnectionPool read timed out" }

/-- C10: when the hasRole read raises, check_minter_role swallows the exception
and returns false, so award_xp aborts with the permission-error result after
the single hasRole call — no transaction is built, simulated or submitted,
contrary to the continue-anyway intent stated in the code. -/
theorem awardXp_hasRole_failure_aborts :
    checkMinterRole roleErrEnv = false ∧
    awardXp roleErrEnv "0xRecipient" = (.finished permissionErrorResult, [RpcCall.hasRoleCall]) :=
  ⟨rfl, rfl⟩

/-! C8: achievement selection by XP. -/

/-- Closed form of the selection loop over the five tiers. -/
theorem selectAchievementType_closed (xp : Nat) :
    selectAchievementType xp =
      if 2000 ≤ xp then some .master
      else if 1000 ≤ xp then some .expert
      else if 750 ≤ xp then some .advanced
      else if 500 ≤ xp then some .intermediate
      else if 100 ≤ xp then some .beginner
      else none := by
  simp only [selectAchievementType, sortedAchievementTypes, selectAchievementLoop,
    achievementThresholds]
  split_ifs <;> first | rfl | omega

/-- C8: award_achievement_by_xp selects the highest tier whose threshold is at
most the XP amount; when no tier qualifies — exactly when the amount is below
the Beginner threshold 100 — it returns a validation_error result having made
no RPC call. -/
theorem awardAchievementByXp_highest_tier (xp : Nat) :
    (∀ t, selectAchievementType xp = some t →
        achievementThresholds t ≤ xp ∧
        ∀ u, achievementThresholds u ≤ xp → achievementThresholds u ≤ achievementThresholds t) ∧
    (selectAchievementType xp = none → xp < 100) ∧
    (xp < 100 → ∀ env addr, awardAchievementByXp env addr xp =
        (.finished { status := "error", errorCategory := some "validation_error",
                     errorMsg := some "XP amount does not qualify for any achievement level",
                     txHash := none }, [])) := by
  refine ⟨?_, ?_, ?_⟩
  · intro t ht
    rw [selectAchievementType_closed] at ht
    split_ifs at ht with h1 h2 h3 h4 h5 <;>
      simp only [Option.some.injEq] at ht <;> subst ht <;>
      refine ⟨by simp [achievementThresholds]; omega, ?_⟩ <;>
      intro u hu <;> cases u <;> simp [achievementThresholds] at * <;> omega
  · intro h
    rw [selectAchievementType_closed] at h
    split_ifs at h with h1 h2 h3 h4 h5
    omega
  · intro h env addr
    have hsel : selectAchievementType xp = none := by
      rw [selectAchievementType_closed]
      split_ifs <;> first | omega | rfl
    simp [awardAchievementByXp, hsel]

/-- C8 witness: the selection applied at 1200 XP (Expert) and the validation
failure applied at 99 XP. -/
theorem awardAchievementByXp_highest_tier_witness :
    achievementThresholds .expert ≤ 1200 ∧
    awardAchievementByXp happyEnv "0xCafe" 99 =
      (.finished { status := "error", errorCategory := some "validation_error",
                   errorMsg := some "XP amount does not qualify for any achievement level",
                   txHash := none }, []) := by
  constructor
  · exact ((awardAchievementByXp_highest_tier 1200).1 .expert (by decide)).1
  · exact (awardAchievementByXp_highest_tier 99).2.2 (by omega) happyEnv "0xCafe"

end SLTeach
